import Mathlib

/-!
Shallow embedding of `src/app.py`, a minimal Flask application that serves a
static HTML page at `GET /` and a dog-vs-cat image classifier at
`POST /predict`.  External library calls (file reading via Werkzeug, image
decoding/resizing via PIL, array conversion and Xception preprocessing via
Keras/NumPy, and the model's forward pass via TensorFlow) are opaque to this
program: they are modelled as oracle functions collected in an `Env` record,
fallible ones returning `Except String` (a raised Python exception `e`
becomes `.error (str e)`).  Python floats are modelled as rationals; the
program only compares a score against 0.5 and computes `1.0 - score`.
-/

namespace DogCat

/-- Opaque handle for the uploaded file object (`file` in the handler). -/
abbrev FileBlob := Nat

/-- Opaque handle for a byte string (`img_bytes = file.read()`). -/
abbrev BytesBlob := Nat

/-- Opaque handle for a PIL image. -/
abbrev ImgBlob := Nat

/-- Opaque handle for a NumPy array. -/
abbrev ArrBlob := Nat

/-- The loaded Keras model: its `input_shape` attribute (a tuple whose
entries may be `None`, e.g. `(None, 299, 299, 3)`) and its forward pass.
`predictScore` bundles `model.predict(img_array)` together with the scalar
extraction `float(preds[0][0])` of `src/app.py` lines 126-127; it is fallible
because `predict` may raise (e.g. on a shape mismatch) and the indexing may
raise `IndexError`. -/
structure Model where
  input_shape : List (Option Nat)
  predictScore : ArrBlob → Except String ℚ

/-- The module-level globals set at startup: `model` (line 15 or 20) and
`input_shape` (line 17 or 21).  `input_shape` is a pair of possibly-`None`
entries because it is sliced out of the model's `input_shape` tuple. -/
structure ServerState where
  model : Option Model
  input_shape : Option Nat × Option Nat

/-- The disk as seen by startup: `os.path.exists` and
`tf.keras.models.load_model`. -/
structure Disk where
  path_exists : String → Bool
  load_model : String → Model

/-- `model_path = 'best_model_xception.keras'` (line 13). -/
def model_path : String := "best_model_xception.keras"

/-- Module-level startup code of `src/app.py` lines 13-22.  Returns the
resulting global state together with the number of `load_model` calls made.
The function is total: when the file is absent the process still starts,
with `model = None` and the default shape `(299, 299)`. -/
def startup (d : Disk) : ServerState × Nat :=
  if d.path_exists model_path then
    let model := d.load_model model_path
    let input_shape :=
      if (model.input_shape.get? 1).getD none ≠ none then
        ((model.input_shape.get? 1).getD none, (model.input_shape.get? 2).getD none)
      else (some 299, some 299)
    ({ model := some model, input_shape := input_shape }, 1)
  else
    ({ model := none, input_shape := (some 299, some 299) }, 0)

/-- An entry of `request.files`: a Werkzeug `FileStorage` with its
`filename` attribute and opaque contents. -/
structure UploadedFile where
  filename : String
  content : FileBlob
deriving DecidableEq

/-- An HTTP request as the handlers see it: `request.files` as an
association list (a `MultiDict` keyed by form-field name). -/
structure Request where
  files : List (String × UploadedFile)

/-- The external library operations used by the `/predict` handler, in
source order: `file.read()` (line 115), `Image.open(io.BytesIO(..)).convert('RGB')`
(line 117), `img.resize(input_shape)` (line 118), `image.img_to_array`
(line 119), `np.expand_dims(.., axis=0)` (line 120), and
`preprocess_input` (line 123).  The first three may raise. -/
structure Env where
  fileRead : FileBlob → Except String BytesBlob
  imageOpenRGB : BytesBlob → Except String ImgBlob
  imageResize : ImgBlob → Option Nat × Option Nat → Except String ImgBlob
  img_to_array : ImgBlob → ArrBlob
  expand_dims : ArrBlob → ArrBlob
  preprocess_input : ArrBlob → ArrBlob

/-- A JSON value as produced by this application (only strings and
numbers occur). -/
inductive Json where
  | str (s : String)
  | num (q : ℚ)
deriving DecidableEq

/-- A response body: either an HTML page or a JSON object (an ordered list
of key/value pairs, as built by `jsonify`). -/
inductive Body where
  | html (page : String)
  | json (obj : List (String × Json))
deriving DecidableEq

/-- An HTTP response: status code and body. -/
structure Response where
  status : Nat
  body : Body
deriving DecidableEq

/-- `jsonify(obj)` with Flask's default status 200. -/
def jsonify (obj : List (String × Json)) : Response :=
  { status := 200, body := .json obj }

/-- `jsonify({'error': msg}), status` as used on every error path. -/
def jsonError (msg : String) (status : Nat) : Response :=
  { status := status, body := .json [("error", .str msg)] }

/-- The pipeline stages of the `/predict` handler, at the granularity of
the source's try block: read the bytes, decode to an RGB image, resize,
apply the Xception preprocessing, run the forward pass, format the
response. -/
inductive Step where
  | read
  | decode
  | resize
  | preprocess
  | forward
  | format
deriving DecidableEq

/-- Result of running a handler: the response, the global state afterwards
(the handlers never write the globals, and the embedding threads the state
explicitly so that this is a provable fact rather than a convention), and
the list of pipeline stages the handler started, in order. -/
structure RunResult where
  response : Response
  state : ServerState
  steps : List Step

/-- The constant page `HTML_TEMPLATE` (lines 24-96), with braces, quotes,
apostrophes, backticks and hash signs written as escapes. -/
def HTML_TEMPLATE : String :=
"\n<!DOCTYPE html>\n<html lang=\"ko\">\n<head>\n    <meta charset=\"UTF-8\">\n    <title>강아지 vs 고양이 분류기</title>\n    <style>\n        body \x7b font-family: \x27Segoe UI\x27, Tahoma, Geneva, Verdana, sans-serif; text-align: center; margin-top: 50px; background-color: \x23f4f4f9; color: \x23333; \x7d\n        .container \x7b max-width: 600px; margin: auto; padding: 20px; background: white; border-radius: 10px; box-shadow: 0 4px 8px rgba(0,0,0,0.1); \x7d\n        h1 \x7b color: \x235a67d8; \x7d\n        input[type=\"file\"] \x7b margin: 20px 0; \x7d\n        .btn \x7b background-color: \x235a67d8; color: white; padding: 10px 20px; border: none; border-radius: 5px; cursor: pointer; font-size: 16px; transition: background-color 0.3s; \x7d\n        .btn:hover \x7b background-color: \x23434ce6; \x7d\n        \x23result \x7b margin-top: 20px; font-size: 24px; font-weight: bold; color: \x23333; \x7d\n        img \x7b max-width: 100%; border-radius: 10px; margin-top: 20px; display: none; margin-left: auto; margin-right: auto; \x7d\n        .loading \x7b color: \x23888; font-style: italic; font-size: 18px; \x7d\n    </style>\n</head>\n<body>\n    <div class=\"container\">\n        <h1>🐱 강아지 vs 고양이 분류기 🐶</h1>\n        <p>이미지를 업로드하면 최신 AI(Xception) 모델이 분석하여 결과를 알려줍니다!</p>\n        <form id=\"upload-form\" enctype=\"multipart/form-data\">\n            <input type=\"file\" id=\"image-input\" name=\"file\" accept=\"image/*\" required>\n            <br>\n            <button type=\"submit\" class=\"btn\">분류하기</button>\n        </form>\n        <img id=\"preview\" src=\"\x23\" alt=\"미리보기 이미지\" />\n        <div id=\"result\"></div>\n    </div>\n\n    <script>\n        const imageInput = document.getElementById(\x27image-input\x27);\n        const preview = document.getElementById(\x27preview\x27);\n        const resultDiv = document.getElementById(\x27result\x27);\n        \n        imageInput.addEventListener(\x27change\x27, function() \x7b\n            const file = this.files[0];\n            if (file) \x7b\n                const reader = new FileReader();\n                reader.onload = function(e) \x7b\n                    preview.src = e.target.result;\n                    preview.style.display = \x27block\x27;\n                    resultDiv.innerHTML = \x27\x27;\n                \x7d\n                reader.readAsDataURL(file);\n            \x7d\n        \x7d);\n\n        document.getElementById(\x27upload-form\x27).onsubmit = async (e) => \x7b\n            e.preventDefault();\n            const formData = new FormData(e.target);\n            resultDiv.innerHTML = \x27<span class=\"loading\">분석 중... ⏳</span>\x27;\n            try \x7b\n                const response = await fetch(\x27/predict\x27, \x7b\n                    method: \x27POST\x27,\n                    body: formData\n                \x7d);\n                const data = await response.json();\n                if (data.error) \x7b\n                    resultDiv.innerHTML = \x27<span style=\"color: red;\">에러: \x27 + data.error + \x27</span>\x27;\n                \x7d else \x7b\n                    let predColor = data.prediction.includes(\x27강아지\x27) ? \x27\x232b6cb0\x27 : \x27\x23c53030\x27;\n                    resultDiv.innerHTML = \x60결과: <span style=\"color: $\x7bpredColor\x7d;\">$\x7bdata.prediction\x7d</span><br><span style=\"font-size: 16px; font-weight: normal; color: \x23718096;\">AI 확신도: $\x7b(data.confidence * 100).toFixed(2)\x7d%</span>\x60;\n                \x7d\n            \x7d catch (err) \x7b\n                resultDiv.innerHTML = \x27<span style=\"color: red;\">서버 오류가 발생했습니다.</span>\x27;\n            \x7d\n        \x7d;\n    </script>\n</body>\n</html>\n"

/-- Jinja template rendering, `render_template_string` (line 100).
`HTML_TEMPLATE` contains no Jinja delimiters (no statement or expression
tags), so rendering it is the identity; the handler passes it no template
variables. -/
def render_template_string (s : String) : String := s

/-- Handler of `GET /` (`index`, lines 98-100): returns the rendered
constant page; Flask wraps a returned string in a 200 response. -/
def index (st : ServerState) (_req : Request) : Response × ServerState :=
  ({ status := 200, body := .html (render_template_string HTML_TEMPLATE) }, st)

/-- Handler of `POST /predict` (`predict`, lines 102-142), translated
branch by branch from the source.  The three guard checks (lines 104-112)
return before the try block; inside the try block every failing library
call is caught by the `except Exception` clause (line 141) and answered
with `jsonify({'error': str(e)}), 500`. -/
def predict (env : Env) (st : ServerState) (req : Request) : RunResult :=
  match st.model with
  | none => ⟨jsonError "모델이 로드되지 않았습니다. 서버 설정을 확인하세요." 500, st, []⟩
  | some model =>
    match req.files.lookup "file" with
    | none => ⟨jsonError "유효한 파일이 전송되지 않았습니다." 400, st, []⟩
    | some file =>
      if file.filename = "" then
        ⟨jsonError "선택된 파일이 없습니다." 400, st, []⟩
      else
        match env.fileRead file.content with
        | .error e => ⟨jsonError e 500, st, [.read]⟩
        | .ok img_bytes =>
          match env.imageOpenRGB img_bytes with
          | .error e => ⟨jsonError e 500, st, [.read, .decode]⟩
          | .ok img0 =>
            match env.imageResize img0 st.input_shape with
            | .error e => ⟨jsonError e 500, st, [.read, .decode, .resize]⟩
            | .ok img =>
              let img_array := env.expand_dims (env.img_to_array img)
              let img_array2 := env.preprocess_input img_array
              match model.predictScore img_array2 with
              | .error e =>
                  ⟨jsonError e 500, st, [.read, .decode, .resize, .preprocess, .forward]⟩
              | .ok score =>
                if score > 0.5 then
                  ⟨jsonify [("prediction", .str "강아지 🐶"), ("confidence", .num score)],
                   st, [.read, .decode, .resize, .preprocess, .forward, .format]⟩
                else
                  ⟨jsonify [("prediction", .str "고양이 🐱"), ("confidence", .num (1 - score))],
                   st, [.read, .decode, .resize, .preprocess, .forward, .format]⟩

/-- Whether a response's JSON body has key `k`. -/
def Response.hasKey (r : Response) (k : String) : Bool :=
  match r.body with
  | .html _ => false
  | .json obj => (obj.lookup k).isSome

/-- The string value stored under key `k` of a JSON response body. -/
def Response.jsonStr (r : Response) (k : String) : Option String :=
  match r.body with
  | .html _ => none
  | .json obj =>
    match obj.lookup k with
    | some (.str s) => some s
    | _ => none

/-- The numeric value stored under key `k` of a JSON response body. -/
def Response.jsonNum (r : Response) (k : String) : Option ℚ :=
  match r.body with
  | .html _ => none
  | .json obj =>
    match obj.lookup k with
    | some (.num q) => some q
    | _ => none

/-- The three guard conditions of lines 104-112, under which the handler
answers before entering the try block: no model loaded, no `'file'` part,
or an empty filename. -/
def guardRejects (st : ServerState) (req : Request) : Bool :=
  st.model.isNone ||
    match req.files.lookup "file" with
    | none => true
    | some file => file.filename == ""

/-- HTTP methods used by the app. -/
inductive HttpMethod where
  | GET
  | POST
deriving DecidableEq

/-- Names of the two view functions. -/
inductive HandlerId where
  | index
  | predict
deriving DecidableEq

/-- A registered Flask route. -/
structure Route where
  path : String
  methods : List HttpMethod
  handler : HandlerId
deriving DecidableEq

/-- The app's routing table: exactly the two `@app.route` registrations of
`src/app.py` (lines 98 and 102; Flask's default method is GET). -/
def routes : List Route :=
  [ { path := "/", methods := [.GET], handler := .index },
    { path := "/predict", methods := [.POST], handler := .predict } ]

/-- Dispatch from a handler name to the embedded handler. -/
def dispatch (h : HandlerId) (env : Env) (st : ServerState) (req : Request) :
    Response × ServerState :=
  match h with
  | .index => index st req
  | .predict => let r := predict env st req; (r.response, r.state)

end DogCat

namespace DogCat

/-- A model whose forward pass returns the score 3/4 ("dog"). -/
def mOk : Model :=
  { input_shape := [none, some 299, some 299, some 3],
    predictScore := fun _ => .ok (3 / 4) }

/-- State after a successful startup with `mOk` loaded. -/
def stOk : ServerState := { model := some mOk, input_shape := (some 299, some 299) }

/-- State after a startup that found no model file. -/
def stNone : ServerState := { model := none, input_shape := (some 299, some 299) }

/-- An uploaded file with a non-empty filename. -/
def fOk : UploadedFile := { filename := "a.jpg", content := 0 }

/-- A request carrying `fOk` under the form field `'file'`. -/
def reqOk : Request := { files := [("file", fOk)] }

/-- An environment in which every library call succeeds. -/
def envOk : Env :=
  { fileRead := fun b => .ok b,
    imageOpenRGB := fun b => .ok b,
    imageResize := fun i _ => .ok i,
    img_to_array := fun i => i,
    expand_dims := fun a => a,
    preprocess_input := fun a => a }

/-- An environment in which `file.read()` raises. -/
def envReadFail : Env :=
  { envOk with fileRead := fun _ => .error "read failed" }

/-- A disk on which the model file exists and loads as `mOk`. -/
def diskYes : Disk := { path_exists := fun _ => true, load_model := fun _ => mOk }

/-- A disk on which the model file is absent. -/
def diskNo : Disk := { path_exists := fun _ => false, load_model := fun _ => mOk }

/-- All pipeline stages, in the order the try block runs them. -/
def fullSteps : List Step := [.read, .decode, .resize, .preprocess, .forward, .format]

/-- Classification of every branch of the `/predict` handler: the state is
never written; under a guard rejection the handler answers an error object
(500 when the model is unloaded, else 400) without starting the pipeline;
otherwise it either answers `jsonify(\x7b'error': str(e)\x7d), 500` for the
first library call that raised, having started at least one stage and never
the formatting stage, or answers the success object after running every
stage in order. -/
lemma predict_classify (env : Env) (st : ServerState) (req : Request) :
    (predict env st req).state = st ∧
    ((guardRejects st req = true ∧
        (∃ e, (predict env st req).response =
          jsonError e (if st.model.isNone then 500 else 400)) ∧
        (predict env st req).steps = []) ∨
     (guardRejects st req = false ∧
        ((∃ e, (predict env st req).response = jsonError e 500 ∧
            (predict env st req).steps ≠ [] ∧
            (predict env st req).steps.contains .format = false) ∨
         (∃ score : ℚ,
            (predict env st req).response = jsonify
              [("prediction", .str (if score > 0.5 then "강아지 🐶" else "고양이 🐱")),
               ("confidence", .num (if score > 0.5 then score else 1 - score))] ∧
            (predict env st req).steps = fullSteps)))) := by
  cases hm : st.model with
  | none =>
    refine ⟨by simp [predict, hm], Or.inl ⟨by simp [guardRejects, hm], ⟨"모델이 로드되지 않았습니다. 서버 설정을 확인하세요.", by simp [predict, hm]⟩, by simp [predict, hm]⟩⟩
  | some m =>
    cases hf : req.files.lookup "file" with
    | none =>
      refine ⟨by simp [predict, hm, hf], Or.inl ⟨by simp [guardRejects, hm, hf], ⟨"유효한 파일이 전송되지 않았습니다.", by simp [predict, hm, hf]⟩, by simp [predict, hm, hf]⟩⟩
    | some file =>
      by_cases hn : file.filename = ""
      · refine ⟨by simp [predict, hm, hf, hn], Or.inl ⟨by simp [guardRejects, hm, hf, hn], ⟨"선택된 파일이 없습니다.", by simp [predict, hm, hf, hn]⟩, by simp [predict, hm, hf, hn]⟩⟩
      · have hg : guardRejects st req = false := by
          simp [guardRejects, hm, hf, hn]
        cases hr : env.fileRead file.content with
        | error e =>
          exact ⟨by simp [predict, hm, hf, hn, hr], Or.inr ⟨hg, Or.inl ⟨e, by simp [predict, hm, hf, hn, hr], by simp [predict, hm, hf, hn, hr], by simp [predict, hm, hf, hn, hr]⟩⟩⟩
        | ok bs =>
          cases hd : env.imageOpenRGB bs with
          | error e =>
            exact ⟨by simp [predict, hm, hf, hn, hr, hd], Or.inr ⟨hg, Or.inl ⟨e, by simp [predict, hm, hf, hn, hr, hd], by simp [predict, hm, hf, hn, hr, hd], by simp [predict, hm, hf, hn, hr, hd]⟩⟩⟩
          | ok i0 =>
            cases hz : env.imageResize i0 st.input_shape with
            | error e =>
              exact ⟨by simp [predict, hm, hf, hn, hr, hd, hz], Or.inr ⟨hg, Or.inl ⟨e, by simp [predict, hm, hf, hn, hr, hd, hz], by simp [predict, hm, hf, hn, hr, hd, hz], by simp [predict, hm, hf, hn, hr, hd, hz]⟩⟩⟩
            | ok i =>
              cases hs : m.predictScore (env.preprocess_input (env.expand_dims (env.img_to_array i))) with
              | error e =>
                exact ⟨by simp [predict, hm, hf, hn, hr, hd, hz, hs], Or.inr ⟨hg, Or.inl ⟨e, by simp [predict, hm, hf, hn, hr, hd, hz, hs], by simp [predict, hm, hf, hn, hr, hd, hz, hs], by simp [predict, hm, hf, hn, hr, hd, hz, hs]⟩⟩⟩
              | ok score =>
                by_cases hsc : score > 0.5
                · exact ⟨by simp [predict, hm, hf, hn, hr, hd, hz, hs, hsc], Or.inr ⟨hg, Or.inr ⟨score, by simp [predict, jsonify, hm, hf, hn, hr, hd, hz, hs, hsc, fullSteps], by simp [predict, hm, hf, hn, hr, hd, hz, hs, hsc, fullSteps]⟩⟩⟩
                · exact ⟨by simp [predict, hm, hf, hn, hr, hd, hz, hs, hsc], Or.inr ⟨hg, Or.inr ⟨score, by simp [predict, jsonify, hm, hf, hn, hr, hd, hz, hs, hsc, fullSteps], by simp [predict, hm, hf, hn, hr, hd, hz, hs, hsc, fullSteps]⟩⟩⟩

end DogCat

namespace DogCat

/-- When the guards pass and every library call succeeds, the handler
returns the success object of lines 130-140. -/
lemma predict_eq_success (env : Env) (st : ServerState) (req : Request)
    (m : Model) (file : UploadedFile) (bs : BytesBlob) (i0 i : ImgBlob) (score : ℚ)
    (hm : st.model = some m) (hf : req.files.lookup "file" = some file)
    (hn : ¬ file.filename = "") (hr : env.fileRead file.content = .ok bs)
    (hd : env.imageOpenRGB bs = .ok i0) (hz : env.imageResize i0 st.input_shape = .ok i)
    (hs : m.predictScore (env.preprocess_input (env.expand_dims (env.img_to_array i))) = .ok score) :
    predict env st req =
      if score > 0.5 then
        ⟨jsonify [("prediction", .str "강아지 🐶"), ("confidence", .num score)], st, fullSteps⟩
      else
        ⟨jsonify [("prediction", .str "고양이 🐱"), ("confidence", .num (1 - score))], st, fullSteps⟩ := by
  by_cases hsc : score > 0.5 <;>
    simp [predict, hm, hf, hn, hr, hd, hz, hs, hsc, fullSteps]

end DogCat

namespace DogCat

/-- Claim C3: at process startup, if the model file exists on disk the
serialized model is loaded exactly once; if it is absent, the model is left
unloaded (`model = None`), the default input shape (299, 299) is used, and
startup still succeeds (`startup` is total and returns a state either way). -/
theorem startup_load_once (d : Disk) :
    (d.path_exists model_path = true →
       (startup d).1.model = some (d.load_model model_path) ∧ (startup d).2 = 1) ∧
    (d.path_exists model_path = false →
       (startup d).1.model = none ∧
       (startup d).1.input_shape = (some 299, some 299) ∧ (startup d).2 = 0) := by
  constructor <;> intro h <;> simp [startup, h]

/-- Witness for C3: both startup branches at concrete disks. -/
theorem startup_load_once_witness :
    ((startup diskYes).1.model = some (diskYes.load_model model_path) ∧
       (startup diskYes).2 = 1) ∧
    ((startup diskNo).1.model = none ∧
       (startup diskNo).1.input_shape = (some 299, some 299) ∧ (startup diskNo).2 = 0) :=
  ⟨(startup_load_once diskYes).1 rfl, (startup_load_once diskNo).2 rfl⟩

/-- Claim C7: GET / serves a static page: for every request and every
server state it returns the same fixed HTML document `HTML_TEMPLATE`
(Jinja-rendering it is the identity, as the page has no template tags). -/
theorem index_constant_page (st st2 : ServerState) (req req2 : Request) :
    (index st req).1 = { status := 200, body := .html HTML_TEMPLATE } ∧
    (index st req).1 = (index st2 req2).1 :=
  ⟨rfl, rfl⟩

/-- Claim C8: the loaded model and configured input shape (the globals in
`ServerState`) are left unchanged by every request to GET / and
POST /predict; the handlers return the state they were given. -/
theorem handlers_preserve_state (env : Env) (st : ServerState) (req : Request) :
    (predict env st req).state = st ∧ (index st req).2 = st ∧
    (dispatch .predict env st req).2 = st ∧ (dispatch .index env st req).2 = st :=
  ⟨(predict_classify env st req).1, rfl, (predict_classify env st req).1, rfl⟩

/-- Claim C9: the application registers exactly two routes, one dispatching
to the page handler and one to the prediction handler. -/
theorem routes_exactly_two :
    routes.length = 2 ∧
    routes = [ { path := "/", methods := [.GET], handler := .index },
               { path := "/predict", methods := [.POST], handler := .predict } ] ∧
    (∀ (env : Env) (st : ServerState) (req : Request),
       dispatch .index env st req = index st req ∧
       dispatch .predict env st req =
         ((predict env st req).response, (predict env st req).state)) :=
  ⟨rfl, rfl, fun _ _ _ => ⟨rfl, rfl⟩⟩

end DogCat

namespace DogCat

/-- Claim C1: whenever an inference runs, the returned label is
'강아지 🐶' when the score exceeds 0.5 and '고양이 🐱' otherwise (0.5
included), and no response ever carries any other label. -/
theorem predict_threshold_labels :
    (∀ (env : Env) (st : ServerState) (req : Request) (m : Model)
       (file : UploadedFile) (bs : BytesBlob) (i0 i : ImgBlob) (score : ℚ),
       st.model = some m → req.files.lookup "file" = some file →
       file.filename ≠ "" → env.fileRead file.content = .ok bs →
       env.imageOpenRGB bs = .ok i0 → env.imageResize i0 st.input_shape = .ok i →
       m.predictScore (env.preprocess_input (env.expand_dims (env.img_to_array i))) = .ok score →
       (predict env st req).response.jsonStr "prediction" =
         some (if score > 0.5 then "강아지 🐶" else "고양이 🐱")) ∧
    (∀ (env : Env) (st : ServerState) (req : Request) (p : String),
       (predict env st req).response.jsonStr "prediction" = some p →
       p = "강아지 🐶" ∨ p = "고양이 🐱") := by
  constructor
  · intro env st req m file bs i0 i score hm hf hn hr hd hz hs
    rw [predict_eq_success env st req m file bs i0 i score hm hf hn hr hd hz hs]
    by_cases hsc : score > 0.5 <;> simp [hsc, Response.jsonStr, jsonify, List.lookup]
  · intro env st req p hp
    rcases (predict_classify env st req).2 with ⟨-, ⟨e, he⟩, -⟩ | ⟨-, ⟨e, he, -, -⟩ | ⟨score, hsucc, -⟩⟩
    · rw [he] at hp; simp [Response.jsonStr, jsonError, List.lookup] at hp
    · rw [he] at hp; simp [Response.jsonStr, jsonError, List.lookup] at hp
    · rw [hsucc] at hp
      simp [Response.jsonStr, jsonify, List.lookup] at hp
      split at hp
      · exact Or.inl hp.symm
      · exact Or.inr hp.symm

/-- Witness for C1: a concrete run whose score 3/4 yields the dog label. -/
theorem predict_threshold_labels_witness :
    (predict envOk stOk reqOk).response.jsonStr "prediction" =
      some (if (3 / 4 : ℚ) > 0.5 then "강아지 🐶" else "고양이 🐱") :=
  predict_threshold_labels.1 envOk stOk reqOk mOk fOk 0 0 0 (3 / 4)
    rfl (by decide) (by decide) rfl rfl rfl rfl

/-- Claim C2: every successful `/predict` response is the JSON object with
exactly the keys 'prediction' and 'confidence', with HTTP status 200. -/
theorem predict_success_shape (env : Env) (st : ServerState) (req : Request)
    (h : (predict env st req).response.hasKey "error" = false) :
    (predict env st req).response.status = 200 ∧
    ∃ p c, (predict env st req).response.body =
      .json [("prediction", .str p), ("confidence", .num c)] := by
  rcases (predict_classify env st req).2 with ⟨-, ⟨e, he⟩, -⟩ | ⟨-, ⟨e, he, -, -⟩ | ⟨score, hsucc, -⟩⟩
  · rw [he] at h; simp [Response.hasKey, jsonError, List.lookup] at h
  · rw [he] at h; simp [Response.hasKey, jsonError, List.lookup] at h
  · rw [hsucc]; exact ⟨rfl, _, _, rfl⟩

/-- Witness for C2: the concrete successful run. -/
theorem predict_success_shape_witness :
    (predict envOk stOk reqOk).response.status = 200 ∧
    ∃ p c, (predict envOk stOk reqOk).response.body =
      .json [("prediction", .str p), ("confidence", .num c)] :=
  predict_success_shape envOk stOk reqOk (by
    rw [predict_eq_success envOk stOk reqOk mOk fOk 0 0 0 (3 / 4)
          rfl (by decide) (by decide) rfl rfl rfl rfl,
        if_pos (by norm_num : (3 / 4 : ℚ) > 0.5)]
    decide)

/-- Claim C4: every accepted upload that reaches a 200 response went, in
order, through reading the bytes, decoding to RGB, resizing, Xception
preprocessing, exactly one forward pass, and response formatting. -/
theorem predict_pipeline_order (env : Env) (st : ServerState) (req : Request)
    (h : (predict env st req).response.status = 200) :
    (predict env st req).steps =
      [.read, .decode, .resize, .preprocess, .forward, .format] ∧
    (predict env st req).steps.count .forward = 1 := by
  rcases (predict_classify env st req).2 with ⟨-, ⟨e, he⟩, -⟩ | ⟨-, ⟨e, he, -, -⟩ | ⟨score, hsucc, hsteps⟩⟩
  · rw [he] at h
    by_cases hm : st.model.isNone <;> simp [jsonError, hm] at h
  · rw [he] at h; simp [jsonError] at h
  · exact ⟨hsteps, by rw [hsteps]; decide⟩

/-- Witness for C4: the concrete successful run performs the six stages. -/
theorem predict_pipeline_order_witness :
    (predict envOk stOk reqOk).steps =
      [.read, .decode, .resize, .preprocess, .forward, .format] ∧
    (predict envOk stOk reqOk).steps.count .forward = 1 :=
  predict_pipeline_order envOk stOk reqOk (by
    rw [predict_eq_success envOk stOk reqOk mOk fOk 0 0 0 (3 / 4)
          rfl (by decide) (by decide) rfl rfl rfl rfl,
        if_pos (by norm_num : (3 / 4 : ℚ) > 0.5)]
    rfl)

/-- Claim C10: when the model's score lies in [0, 1], the returned
confidence equals max(score, 1 - score), hence lies in [0.5, 1]. -/
theorem predict_confidence_max (env : Env) (st : ServerState) (req : Request)
    (m : Model) (file : UploadedFile) (bs : BytesBlob) (i0 i : ImgBlob) (score : ℚ)
    (hm : st.model = some m) (hf : req.files.lookup "file" = some file)
    (hn : file.filename ≠ "") (hr : env.fileRead file.content = .ok bs)
    (hd : env.imageOpenRGB bs = .ok i0) (hz : env.imageResize i0 st.input_shape = .ok i)
    (hs : m.predictScore (env.preprocess_input (env.expand_dims (env.img_to_array i))) = .ok score)
    (h0 : 0 ≤ score) (h1 : score ≤ 1) :
    (predict env st req).response.jsonNum "confidence" = some (max score (1 - score)) ∧
    (0.5 : ℚ) ≤ max score (1 - score) ∧ max score (1 - score) ≤ 1 := by
  rw [predict_eq_success env st req m file bs i0 i score hm hf hn hr hd hz hs]
  have half : (0.5 : ℚ) = 1 / 2 := by norm_num
  by_cases hsc : score > 0.5
  · have hsc2 : (1 : ℚ) - score ≤ score := by rw [half] at hsc; linarith
    have hmax : max score (1 - score) = score := max_eq_left hsc2
    refine ⟨?_, ?_, ?_⟩
    · simp [hsc, Response.jsonNum, jsonify, List.lookup, hmax]
    · rw [hmax, half]; rw [half] at hsc; linarith
    · rw [hmax]; exact h1
  · have hle : score ≤ 0.5 := le_of_not_lt hsc
    rw [half] at hle
    have hsc2 : score ≤ 1 - score := by linarith
    have hmax : max score (1 - score) = 1 - score := max_eq_right hsc2
    refine ⟨?_, ?_, ?_⟩
    · simp [hsc, Response.jsonNum, jsonify, List.lookup, hmax]
    · rw [hmax, half]; linarith
    · rw [hmax]; linarith

/-- Witness for C10: the concrete run with score 3/4 returns confidence
max(3/4, 1/4) = 3/4. -/
theorem predict_confidence_max_witness :
    (predict envOk stOk reqOk).response.jsonNum "confidence" =
      some (max (3 / 4 : ℚ) (1 - 3 / 4)) ∧
    (0.5 : ℚ) ≤ max (3 / 4 : ℚ) (1 - 3 / 4) ∧ max (3 / 4 : ℚ) (1 - 3 / 4) ≤ 1 :=
  predict_confidence_max envOk stOk reqOk mOk fOk 0 0 0 (3 / 4)
    rfl (by decide) (by decide) rfl rfl rfl rfl (by norm_num) (by norm_num)

end DogCat

namespace DogCat

/-- Counterexample to claim C5 as stated: with the model loaded and a
well-formed upload whose `file.read()` raises, the handler returns an error
object and performs no forward pass, yet none of the three guard
conditions (model unloaded, missing 'file' part, empty filename) holds. -/
theorem predict_guard_counterexample :
    (predict envReadFail stOk reqOk).response.hasKey "error" = true ∧
    (predict envReadFail stOk reqOk).steps.contains .forward = false ∧
    guardRejects stOk reqOk = false := by decide

/-- Claim C5 (amended): POST /predict returns an error JSON object with key
'error' without entering the processing pipeline (so without attempting
inference) exactly when the model is unloaded, the request has no 'file'
part, or the uploaded filename is empty — with status 500 in the first case
and 400 in the other two; otherwise the pipeline leading to inference is
attempted (though a library exception may still stop it before the forward
pass). -/
theorem predict_guard_amended (env : Env) (st : ServerState) (req : Request) :
    (((predict env st req).response.hasKey "error" = true ∧
        (predict env st req).steps = []) ↔ guardRejects st req = true) ∧
    (guardRejects st req = true →
       (predict env st req).response.status = (if st.model.isNone then 500 else 400)) ∧
    (guardRejects st req = false → (predict env st req).steps ≠ []) := by
  rcases (predict_classify env st req).2 with ⟨hg, ⟨e, he⟩, hsteps⟩ | ⟨hg, hrest⟩
  · refine ⟨⟨fun _ => hg, fun _ => ⟨?_, hsteps⟩⟩, fun _ => by rw [he]; rfl, fun hgf => ?_⟩
    · rw [he]; simp [Response.hasKey, jsonError, List.lookup]
    · rw [hg] at hgf; cases hgf
  · refine ⟨⟨fun hlhs => ?_, fun hgt => ?_⟩, fun hgt => ?_, fun _ => ?_⟩
    · exfalso
      rcases hrest with ⟨e, -, hne, -⟩ | ⟨score, -, hsteps⟩
      · exact hne hlhs.2
      · rw [hsteps] at hlhs; simp [fullSteps] at hlhs
    · rw [hg] at hgt; cases hgt
    · rw [hg] at hgt; cases hgt
    · rcases hrest with ⟨e, -, hne, -⟩ | ⟨score, -, hsteps⟩
      · exact hne
      · rw [hsteps]; simp [fullSteps]

/-- Witness for C5 (amended): the unloaded-model guard answers 500 with no
pipeline stage started, and a well-formed request enters the pipeline. -/
theorem predict_guard_amended_witness :
    ((predict envOk stNone reqOk).response.status =
       (if stNone.model.isNone then 500 else 400)) ∧
    (predict envOk stOk reqOk).steps ≠ [] :=
  ⟨(predict_guard_amended envOk stNone reqOk).2.1 (by decide),
   (predict_guard_amended envOk stOk reqOk).2.2 (by decide)⟩

/-- Claim C6: the handler never propagates an exception: every error
response is exactly the object with the single key 'error' and carries no
'prediction' key; once past the guards, an error response has status 500;
and a response without an 'error' key is a 200 success. -/
theorem predict_catches_exceptions (env : Env) (st : ServerState) (req : Request) :
    ((predict env st req).response.hasKey "error" = true →
       (predict env st req).response.hasKey "prediction" = false ∧
       ∃ e, (predict env st req).response =
         jsonError e ((predict env st req).response.status)) ∧
    (guardRejects st req = false →
       (predict env st req).response.hasKey "error" = true →
       (predict env st req).response.status = 500) ∧
    ((predict env st req).response.hasKey "error" = false →
       (predict env st req).response.status = 200) := by
  rcases (predict_classify env st req).2 with ⟨hg, ⟨e, he⟩, -⟩ | ⟨hg, ⟨e, he, -, -⟩ | ⟨score, hsucc, -⟩⟩
  · refine ⟨fun _ => ⟨?_, e, by rw [he]; rfl⟩, fun hgf => ?_, fun hfalse => ?_⟩
    · rw [he]; simp [Response.hasKey, jsonError, List.lookup]
    · rw [hg] at hgf; cases hgf
    · rw [he] at hfalse; simp [Response.hasKey, jsonError, List.lookup] at hfalse
  · refine ⟨fun _ => ⟨?_, e, by rw [he]; rfl⟩, fun _ _ => by rw [he]; rfl, fun hfalse => ?_⟩
    · rw [he]; simp [Response.hasKey, jsonError, List.lookup]
    · rw [he] at hfalse; simp [Response.hasKey, jsonError, List.lookup] at hfalse
  · refine ⟨fun htrue => ?_, fun _ htrue => ?_, fun _ => by rw [hsucc]; rfl⟩
    · rw [hsucc] at htrue; simp [Response.hasKey, jsonify, List.lookup] at htrue
    · rw [hsucc] at htrue; simp [Response.hasKey, jsonify, List.lookup] at htrue

/-- Witness for C6: a concrete caught read exception: the 500 error
response is exactly the 'error' object and has no 'prediction' key. -/
theorem predict_catches_exceptions_witness :
    (predict envReadFail stOk reqOk).response.hasKey "prediction" = false ∧
    ∃ e, (predict envReadFail stOk reqOk).response =
      jsonError e ((predict envReadFail stOk reqOk).response.status) :=
  (predict_catches_exceptions envReadFail stOk reqOk).1 (by decide)

end DogCat
